import Mathlib

/-!
Verification of the gameplay core of the kauly/playground repository
(src/main.rs, src/player.rs, src/marks.rs): a shallow embedding of the
goal-scoring system, the player motion controller and the kick action,
with theorems settling the specified behavioural properties.

Modelling conventions:
  - bevy Vec3 (f32 components) is embedded as a record of real numbers;
  - entity identifiers are natural numbers;
  - the per-frame collision-event batch is a list consumed left to right,
    exactly as the EventReader iterator delivers it;
  - the Score resource field goals (u32) is a natural number (the session
    counter never approaches the u32 range in the modelled scenarios);
  - rotate_x on a Transform multiplies the orientation quaternion by a
    rotation about the x axis; rotations about one fixed axis compose by
    adding their angles, so the player orientation is tracked as the
    accumulated pitch angle.
-/

set_option autoImplicit false

namespace Playground

/-- Three-dimensional vector over the reals, embedding bevy Vec3. -/
@[ext]
structure Vec3 where
  x : ℝ
  y : ℝ
  z : ℝ

instance : Zero Vec3 :=
  ⟨⟨0, 0, 0⟩⟩

instance : Add Vec3 :=
  ⟨fun u v => ⟨u.x + v.x, u.y + v.y, u.z + v.z⟩⟩

instance : Sub Vec3 :=
  ⟨fun u v => ⟨u.x - v.x, u.y - v.y, u.z - v.z⟩⟩

instance : SMul ℝ Vec3 :=
  ⟨fun c v => ⟨c * v.x, c * v.y, c * v.z⟩⟩

/-- Euclidean length of a vector, embedding Vec3::length. -/
noncomputable def Vec3.norm (v : Vec3) : ℝ :=
  Real.sqrt (v.x ^ 2 + v.y ^ 2 + v.z ^ 2)

/-- Vec3::X, the unit vector used by the A / D movement keys (player.rs). -/
def unitX : Vec3 := ⟨1, 0, 0⟩

/-- Vec3::Z, the unit vector used by the W / S movement keys (player.rs). -/
def unitZ : Vec3 := ⟨0, 0, 1⟩

/-- A rapier collision event: Started or Stopped with the two collider
entities (the flags argument is ignored by goal_system, so it is omitted). -/
inductive CollisionEvent : Type where
  | started (a b : ℕ) : CollisionEvent
  | stopped (a b : ℕ) : CollisionEvent
deriving DecidableEq, Repr

/-- The mutable state goal_system touches: the Score resource (goals
field), the ball Transform translation, and the score text section value. -/
structure GoalState where
  score : ℕ
  ballPos : Vec3
  label : String

/-- The fixed respawn point written into the ball Transform on a goal,
main.rs line 331: Vec3::new(0.0, 4.0, 0.0). -/
def respawnPoint : Vec3 := ⟨0, 4, 0⟩

/-- The ball initial spawn translation in setup_physics, main.rs line 151:
Transform::from_xyz(0.0, 4.0, 0.0). -/
def ballSpawn : Vec3 := ⟨0, 4, 0⟩

/-- The z coordinate of the front edge of the board at the player end.
The board is BOARD_DIM = (10.0, 0.1, 20.0); the player spawns at
z = -(BOARD_DIM.2 / 2.0) + 0.5 = -9.5 (main.rs line 175) while the enemy
goal sensor hangs on the opposite front wall. Modelled from the spec: the
spec phrase about the player own goal line can only denote this end of the
board, z = -(20 / 2) = -10. -/
def playerEndLineZ : ℝ := -10

/-- Modelled from the spec: a point above the player own goal line is a
point over that line (same z) at positive height. -/
def abovePlayerGoalLine (p : Vec3) : Prop :=
  p.z = playerEndLineZ ∧ 0 < p.y

/-- The score label string for n goals, embedding the Rust formatting of
"Score: " followed by the decimal count (main.rs line 333). -/
def scoreLabel (n : ℕ) : String :=
  "Score: " ++ toString n

/-- setup_system, main.rs line 108: the Score resource starts at 0 goals. -/
def initialScore : ℕ := 0

/-- setup_physics, main.rs line 301: the score text spawns as "Score: 0". -/
def initialScoreLabel : String := "Score: 0"

/-- The effect of one collision event in the loop body of goal_system
(main.rs lines 328 to 344). A Stopped event in which either entity is the
enemy goal sensor teleports the ball to the respawn point, increments the
score and rewrites the label; the Started arm only logs a warning when the
player and the ball collide, mutating nothing. -/
def goalStep (enemy : ℕ) (s : GoalState) (ev : CollisionEvent) : GoalState :=
  match ev with
  | .stopped a b =>
      if a = enemy ∨ b = enemy then
        { score := s.score + 1
          ballPos := respawnPoint
          label := scoreLabel (s.score + 1) }
      else s
  | .started _ _ => s

/-- goal_system draining one frame batch of collision events in arrival
order (main.rs lines 314 to 345), given the enemy goal sensor entity. -/
def goal_system (enemy : ℕ) (s : GoalState) (evs : List CollisionEvent) : GoalState :=
  evs.foldl (goalStep enemy) s

/-- Whether an event is a Stopped event involving the goal sensor entity,
the condition of the scoring branch in goal_system. -/
def isGoalStopped (enemy : ℕ) : CollisionEvent → Bool
  | .stopped a b => a == enemy || b == enemy
  | .started _ _ => false

/-- Number of goal-scoring events in a batch. -/
def countGoalStopped (enemy : ℕ) (evs : List CollisionEvent) : ℕ :=
  (evs.filter (isGoalStopped enemy)).length

/-- goal_system including its singleton lookups (main.rs lines 322 to 326):
enemy_goal_query.get_single().unwrap(), player_query.get_single().unwrap(),
ball_query.get_single_mut().unwrap() and score_query.get_single_mut().unwrap(),
plus the ResMut Score resource. A lookup that does not find exactly one
entity returns Err and unwrap panics, aborting the frame loop; a missing
Score resource likewise panics when the system parameters are built. The
absent case is embedded as none in, and none out. -/
def goal_system_run (enemyQ playerQ : Option ℕ) (ballQ : Option (ℕ × Vec3))
    (scoreQ : Option ℕ) (textQ : Option String) (evs : List CollisionEvent) :
    Option GoalState :=
  match enemyQ, playerQ, ballQ, scoreQ, textQ with
  | some e, some _p, some (_be, bp), some sc, some lb =>
      some (goal_system e { score := sc, ballPos := bp, label := lb } evs)
  | _, _, _, _, _ => none

/-- The per-frame movement key snapshot read by move_player: W, S, A, D. -/
structure Keys where
  w : Bool
  s : Bool
  a : Bool
  d : Bool

/-- move_player (player.rs lines 13 to 35): start from the zero direction,
add Vec3::Z while W is held, subtract it while S is held, add Vec3::X while
A is held, subtract it while D is held, then scale by delta seconds and the
speed constant 4.0. The result is the translation requested from the
kinematic character controller for this frame. -/
def move_player (keys : Keys) (delta : ℝ) : Vec3 :=
  let direction : Vec3 := ⟨0, 0, 0⟩
  let direction := if keys.w then direction + unitZ else direction
  let direction := if keys.s then direction - unitZ else direction
  let direction := if keys.a then direction + unitX else direction
  let direction := if keys.d then direction - unitX else direction
  (delta * 4) • direction

/-- The direction the specification describes: one unit contribution per
pressed key on each horizontal axis, opposite keys cancelling, written
directly by components for comparison with move_player. -/
def specDirection (keys : Keys) : Vec3 :=
  ⟨(if keys.a then (1 : ℝ) else 0) - (if keys.d then 1 else 0), 0,
   (if keys.w then (1 : ℝ) else 0) - (if keys.s then 1 else 0)⟩

/-- std::f32::consts::FRAC_PI_2, the kick rotation amplitude (player.rs). -/
noncomputable def FRAC_PI_2 : ℝ := Real.pi / 2

/-- player_kick (player.rs lines 37 to 50) acting on the accumulated pitch
angle: rotate_x by minus FRAC_PI_2 when the kick key was just pressed this
frame, then rotate_x by plus FRAC_PI_2 when it was just released this frame. -/
noncomputable def player_kick (justPressed justReleased : Bool) (pitch : ℝ) : ℝ :=
  let pitch := if justPressed then pitch + -FRAC_PI_2 else pitch
  if justReleased then pitch + FRAC_PI_2 else pitch

/-- Rotation about the x axis by angle t as a linear map on points, the
geometric meaning of Transform::rotate_x(t). -/
noncomputable def rotX (t : ℝ) (v : Vec3) : Vec3 :=
  ⟨v.x, Real.cos t * v.y - Real.sin t * v.z,
   Real.sin t * v.y + Real.cos t * v.z⟩

/-- One frame of kick-key input: the just-pressed and just-released edge
flags bevy reports for Space. -/
structure KickInput where
  jp : Bool
  jr : Bool
deriving DecidableEq, Repr

/-- Physical key-state transition for one frame. The key is either up
(false) or down (true); just-pressed fires only on an up to down edge and
just-released only on a down to up edge. Both flags in one frame mean a
tap (press then release) from up, or a release and re-press from down, and
leave the held state as it began. Edge combinations impossible for a real
key (a second press without an intervening release, or a release while up)
have no successor state. -/
def keyNext (down : Bool) (i : KickInput) : Option Bool :=
  match i.jp, i.jr with
  | false, false => some down
  | true, false => if down then none else some true
  | false, true => if down then some false else none
  | true, true => some down

/-- Run the key-state machine over a frame sequence from a given held
state; some final state exactly when the sequence is physically valid. -/
def keyRun (down : Bool) (is : List KickInput) : Option Bool :=
  is.foldl (fun d i => d.bind fun d0 => keyNext d0 i) (some down)

/-- The pitch player_kick maintains for each key state: minus the kick
amplitude while the key is held, zero while it is up. -/
noncomputable def pitchOf (down : Bool) : ℝ :=
  if down then -FRAC_PI_2 else 0

/-- Accumulated pitch after running player_kick over a frame sequence. -/
noncomputable def kickRun (pitch : ℝ) (is : List KickInput) : ℝ :=
  is.foldl (fun p i => player_kick i.jp i.jr p) pitch

/-- The state a frame of goal_system can observe or mutate, together with
the player pitch. goal_system queries the ball Transform, the score text
and the Score resource, never the player Transform, so running it leaves
the pitch component untouched by construction. -/
structure FrameState where
  goal : GoalState
  pitch : ℝ

/-- One run of goal_system inside a frame, acting on the frame state. -/
def goalFrame (enemy : ℕ) (fs : FrameState) (evs : List CollisionEvent) : FrameState :=
  { fs with goal := goal_system enemy fs.goal evs }

/-- The scene state after setup: zero goals, ball at its spawn point, the
initial label. Used as a concrete evaluation point. -/
def initialGoalState : GoalState :=
  { score := initialScore, ballPos := ballSpawn, label := initialScoreLabel }

/-- A concrete state with the ball away from the respawn point, used to
evaluate teleport behaviour. -/
def priorState : GoalState :=
  { score := 3, ballPos := ⟨2, 1, 5⟩, label := scoreLabel 3 }

/-- A concrete event batch with two goal-sensor Stopped events (sensor
entity 7) and one unrelated Started event. -/
def demoEvents : List CollisionEvent :=
  [.stopped 7 3, .stopped 3 7, .started 2 3]

/-- A concrete event batch containing no goal-sensor Stopped event for
sensor entity 0: a Started event and a Stopped event between others. -/
def demoQuietEvents : List CollisionEvent :=
  [.started 1 2, .stopped 3 4]

/-- A concrete physically valid kick input trace: press, hold, release. -/
def demoKickInputs : List KickInput :=
  [⟨true, false⟩, ⟨false, false⟩, ⟨false, true⟩]

@[simp]
theorem Vec3.add_def (u v : Vec3) : u + v = ⟨u.x + v.x, u.y + v.y, u.z + v.z⟩ := rfl

@[simp]
theorem Vec3.sub_def (u v : Vec3) : u - v = ⟨u.x - v.x, u.y - v.y, u.z - v.z⟩ := rfl

@[simp]
theorem Vec3.smul_def (c : ℝ) (v : Vec3) : c • v = ⟨c * v.x, c * v.y, c * v.z⟩ := rfl

theorem goalStep_not_goal (enemy : ℕ) (s : GoalState) (ev : CollisionEvent)
    (h : isGoalStopped enemy ev = false) : goalStep enemy s ev = s := by
  cases ev with
  | started a b => rfl
  | stopped a b =>
      simp only [isGoalStopped, Bool.or_eq_false_iff, beq_eq_false_iff_ne] at h
      simp [goalStep, h.1, h.2]

theorem goalStep_goal (enemy a b : ℕ) (s : GoalState) (h : a = enemy ∨ b = enemy) :
    goalStep enemy s (CollisionEvent.stopped a b) =
      { score := s.score + 1
        ballPos := respawnPoint
        label := scoreLabel (s.score + 1) } := by
  simp only [goalStep]
  rw [if_pos h]

theorem countGoalStopped_cons (enemy : ℕ) (ev : CollisionEvent)
    (rest : List CollisionEvent) :
    countGoalStopped enemy (ev :: rest) =
      (if isGoalStopped enemy ev then 1 else 0) + countGoalStopped enemy rest := by
  simp only [countGoalStopped, List.filter_cons]
  cases h : isGoalStopped enemy ev <;> simp [h, Nat.add_comm]

/-- Closed form of goal_system over a batch: nothing changes when the batch
has no goal-sensor Stopped event; otherwise the score grows by the number
of such events, the ball sits at the respawn point and the label reflects
the final score. -/
theorem goal_system_closed (enemy : ℕ) (evs : List CollisionEvent) (s : GoalState) :
    goal_system enemy s evs =
      if countGoalStopped enemy evs = 0 then s
      else
        { score := s.score + countGoalStopped enemy evs
          ballPos := respawnPoint
          label := scoreLabel (s.score + countGoalStopped enemy evs) } := by
  induction evs generalizing s with
  | nil => simp [goal_system, countGoalStopped]
  | cons ev rest ih =>
      have hfold : goal_system enemy s (ev :: rest) =
          goal_system enemy (goalStep enemy s ev) rest := rfl
      rw [hfold, countGoalStopped_cons]
      cases hb : isGoalStopped enemy ev with
      | false =>
          rw [goalStep_not_goal enemy s ev hb, ih]
          simp
      | true =>
          obtain ⟨a, b, hab, hor⟩ :
              ∃ a b, ev = CollisionEvent.stopped a b ∧ (a = enemy ∨ b = enemy) := by
            cases ev with
            | started a b => simp [isGoalStopped] at hb
            | stopped a b =>
                refine ⟨a, b, rfl, ?_⟩
                simpa [isGoalStopped] using hb
          subst hab
          rw [goalStep_goal enemy a b s hor, ih]
          by_cases hc : countGoalStopped enemy rest = 0
          · simp [hb, hc]
          · have h1 : 1 + countGoalStopped enemy rest ≠ 0 := by omega
            have h2 : s.score + 1 + countGoalStopped enemy rest =
                s.score + (1 + countGoalStopped enemy rest) := by omega
            simp [hb, hc, h1, h2]

theorem keyRun_from_none (is : List KickInput) :
    is.foldl (fun d i => d.bind fun d0 => keyNext d0 i) none = none := by
  induction is with
  | nil => rfl
  | cons i rest ih => exact ih

theorem kick_step (d0 d1 : Bool) (i : KickInput) (h : keyNext d0 i = some d1) :
    player_kick i.jp i.jr (pitchOf d0) = pitchOf d1 := by
  rcases i with ⟨jp, jr⟩
  cases jp <;> cases jr <;> cases d0 <;>
    simp_all [keyNext, player_kick, pitchOf]

/-- Key-state invariant of the kick: over any physically valid input trace
the pitch is minus the amplitude exactly while the key is held, zero
otherwise. -/
theorem kick_invariant (is : List KickInput) (d0 d : Bool)
    (h : keyRun d0 is = some d) : kickRun (pitchOf d0) is = pitchOf d := by
  induction is generalizing d0 with
  | nil =>
      simp only [keyRun, List.foldl_nil, Option.some.injEq] at h
      subst h
      rfl
  | cons i rest ih =>
      have hfold : keyRun d0 (i :: rest) =
          rest.foldl (fun dd j => dd.bind fun x => keyNext x j) (keyNext d0 i) := rfl
      cases hk : keyNext d0 i with
      | none =>
          rw [hfold, hk, keyRun_from_none] at h
          exact absurd h (by simp)
      | some d1 =>
          rw [hfold, hk] at h
          have hstep := kick_step d0 d1 i hk
          show kickRun (player_kick i.jp i.jr (pitchOf d0)) rest = pitchOf d
          rw [hstep]
          exact ih d1 h

theorem frac_pi_2_pos : 0 < FRAC_PI_2 := by
  have h := Real.pi_pos
  unfold FRAC_PI_2
  linarith

/-- C1: every Stopped event in which either entity is the goal sensor
increments the score by exactly one, teleports the ball to the fixed
respawn point and rewrites the label to the Score text for the new count;
over any frame batch the score grows by exactly the number of goal-sensor
Stopped events, each counted separately with no debouncing. -/
theorem goal_events_each_score_once (enemy a b : ℕ) (s : GoalState)
    (evs : List CollisionEvent) (h : a = enemy ∨ b = enemy) :
    goalStep enemy s (CollisionEvent.stopped a b) =
      { score := s.score + 1
        ballPos := respawnPoint
        label := scoreLabel (s.score + 1) } ∧
    (goal_system enemy s evs).score = s.score + countGoalStopped enemy evs := by
  refine ⟨goalStep_goal enemy a b s h, ?_⟩
  rw [goal_system_closed]
  by_cases hc : countGoalStopped enemy evs = 0 <;> simp [hc]

theorem goal_events_each_score_once_witness :
    ((7 : ℕ) = 7 ∨ (3 : ℕ) = 7) ∧
    (goalStep 7 initialGoalState (CollisionEvent.stopped 7 3) =
      { score := initialGoalState.score + 1
        ballPos := respawnPoint
        label := scoreLabel (initialGoalState.score + 1) } ∧
    (goal_system 7 initialGoalState demoEvents).score =
      initialGoalState.score + countGoalStopped 7 demoEvents) :=
  ⟨Or.inl rfl,
   goal_events_each_score_once 7 7 3 initialGoalState demoEvents (Or.inl rfl)⟩

/-- C2 (amended): after any frame batch containing at least one goal event
the ball position is exactly the fixed respawn point, regardless of its
prior position; that respawn point is the ball initial spawn point above
the centre of the board, elevated at height 4 so the ball falls back into
play. -/
theorem goal_resets_ball_to_fixed_point (enemy : ℕ) (s : GoalState)
    (evs : List CollisionEvent) (h : countGoalStopped enemy evs ≠ 0) :
    (goal_system enemy s evs).ballPos = respawnPoint ∧
    respawnPoint = ballSpawn ∧ respawnPoint = ⟨0, 4, 0⟩ := by
  refine ⟨?_, rfl, rfl⟩
  rw [goal_system_closed]
  simp [h]

theorem goal_resets_ball_to_fixed_point_witness :
    countGoalStopped 7 demoEvents ≠ 0 ∧
    ((goal_system 7 priorState demoEvents).ballPos = respawnPoint ∧
     respawnPoint = ballSpawn ∧ respawnPoint = ⟨0, 4, 0⟩) :=
  ⟨by decide, goal_resets_ball_to_fixed_point 7 priorState demoEvents (by decide)⟩

/-- C2 (counterexample): the respawn point is the ball spawn point at the
centre line of the board (z = 0), not a point above the player own goal
line, which sits at the player end of the board (z = -10). -/
theorem respawn_not_above_player_goal_line :
    respawnPoint = ballSpawn ∧ respawnPoint.z = 0 ∧ playerEndLineZ = -10 ∧
    ¬abovePlayerGoalLine respawnPoint := by
  refine ⟨rfl, rfl, rfl, fun hcontra => ?_⟩
  have hz : (0 : ℝ) = -10 := hcontra.1
  norm_num at hz

/-- C3 (counterexample): there is no countdown timer in player_kick. After
the kick press snaps the pitch to minus the amplitude, 240 further frames
with no input (far beyond any fixed kick duration at any frame rate) leave
the pitch at minus the amplitude, which is not 0; only a key release frame
returns it to 0. -/
theorem kick_no_timer_return :
    (fun p => player_kick false false p)^[240] (player_kick true false 0) =
      -FRAC_PI_2 ∧
    -FRAC_PI_2 ≠ (0 : ℝ) ∧ player_kick false true (-FRAC_PI_2) = 0 := by
  have hid : (fun p => player_kick false false p) = id := by
    funext p
    simp [player_kick]
  refine ⟨?_, ne_of_lt (by have := frac_pi_2_pos; linarith), ?_⟩
  · rw [hid, Function.iterate_id]
    simp [player_kick]
  · simp [player_kick]

/-- C3 (amended): the return transition of the kick is release-driven, not
timer-driven: after a press, any number of frames without input leaves the
pitch at minus the amplitude, and the frame whose just-released edge fires
rotates the pitch by plus the amplitude, returning it to 0 from minus the
amplitude. -/
theorem kick_return_release_driven :
    (∀ n : ℕ,
      (fun p => player_kick false false p)^[n] (player_kick true false 0) =
        -FRAC_PI_2) ∧
    (∀ p : ℝ, player_kick false true p = p + FRAC_PI_2) ∧
    player_kick false true (-FRAC_PI_2) = 0 := by
  have hid : (fun p => player_kick false false p) = id := by
    funext p
    simp [player_kick]
  refine ⟨?_, ?_, ?_⟩
  · intro n
    rw [hid, Function.iterate_id]
    simp [player_kick]
  · intro p
    simp [player_kick]
  · simp [player_kick]

/-- C4: the translation handed to the kinematic controller is the sum of
one unit vector per pressed key on each horizontal axis, scaled by the
speed constant 4 and the frame delta: forward alone for time t gives 4 t
along the forward axis, no keys give the zero vector, opposite keys
cancel, and the unnormalized forward plus left diagonal has magnitude
4 t sqrt 2. -/
theorem move_player_sums_unit_vectors (keys : Keys) (t : ℝ) :
    move_player keys t = (t * 4) • specDirection keys ∧
    move_player ⟨true, false, false, false⟩ t = ⟨0, 0, 4 * t⟩ ∧
    move_player ⟨false, false, false, false⟩ t = ⟨0, 0, 0⟩ ∧
    move_player ⟨true, true, false, false⟩ t = ⟨0, 0, 0⟩ ∧
    (0 ≤ t →
      Vec3.norm (move_player ⟨true, false, true, false⟩ t) = 4 * t * Real.sqrt 2) := by
  have hmp : ∀ (k : Keys) (u : ℝ), move_player k u = (u * 4) • specDirection k := by
    rintro ⟨w, s, a, d⟩ u
    cases w <;> cases s <;> cases a <;> cases d <;>
      refine Vec3.ext ?_ ?_ ?_ <;>
      simp [move_player, specDirection, unitX, unitZ]
  refine ⟨hmp keys t, ?_, ?_, ?_, ?_⟩
  · rw [hmp]
    refine Vec3.ext ?_ ?_ ?_ <;> simp [specDirection]
    ring
  · rw [hmp]
    refine Vec3.ext ?_ ?_ ?_ <;> simp [specDirection]
  · rw [hmp]
    refine Vec3.ext ?_ ?_ ?_ <;> simp [specDirection]
  · intro ht
    have hnn : 0 ≤ 4 * t * Real.sqrt 2 :=
      mul_nonneg (mul_nonneg (by norm_num) ht) (Real.sqrt_nonneg 2)
    have hsq : Real.sqrt 2 ^ 2 = 2 := Real.sq_sqrt (by norm_num)
    have harg : move_player ⟨true, false, true, false⟩ t = ⟨t * 4, 0, t * 4⟩ := by
      rw [hmp]
      refine Vec3.ext ?_ ?_ ?_ <;> simp [specDirection]
    rw [harg]
    have hn : Vec3.norm ⟨t * 4, 0, t * 4⟩ = Real.sqrt ((4 * t * Real.sqrt 2) ^ 2) := by
      unfold Vec3.norm
      congr 1
      conv_rhs => rw [mul_pow, hsq]
      ring
    rw [hn, Real.sqrt_sq hnn]

theorem move_player_sums_unit_vectors_witness :
    (0 : ℝ) ≤ 1 ∧
    Vec3.norm (move_player ⟨true, false, true, false⟩ 1) = 4 * 1 * Real.sqrt 2 :=
  ⟨by norm_num,
   (move_player_sums_unit_vectors ⟨true, false, true, false⟩ 1).2.2.2.2 (by norm_num)⟩

/-- C5: if any of the singleton lookups at the head of goal_system (goal
sensor, player, ball, Score resource, score text) finds nothing, the
system aborts the frame instead of proceeding: the run produces no
successor state. -/
theorem goal_system_missing_singleton_aborts (enemyQ playerQ : Option ℕ)
    (ballQ : Option (ℕ × Vec3)) (scoreQ : Option ℕ) (textQ : Option String)
    (evs : List CollisionEvent)
    (h : enemyQ = none ∨ playerQ = none ∨ ballQ = none ∨ scoreQ = none ∨
      textQ = none) :
    goal_system_run enemyQ playerQ ballQ scoreQ textQ evs = none := by
  rcases enemyQ with _ | e <;> rcases playerQ with _ | p <;>
    rcases ballQ with _ | ⟨be, bp⟩ <;> rcases scoreQ with _ | sc <;>
    rcases textQ with _ | lb <;> first | rfl | simp_all

theorem goal_system_missing_singleton_aborts_witness :
    ((some 7 : Option ℕ) = none ∨ (some 1 : Option ℕ) = none ∨
      (none : Option (ℕ × Vec3)) = none ∨ (some 0 : Option ℕ) = none ∨
      (some initialScoreLabel : Option String) = none) ∧
    goal_system_run (some 7) (some 1) none (some 0) (some initialScoreLabel)
      demoEvents = none :=
  ⟨Or.inr (Or.inr (Or.inl rfl)),
   goal_system_missing_singleton_aborts (some 7) (some 1) none (some 0)
     (some initialScoreLabel) demoEvents (Or.inr (Or.inr (Or.inl rfl)))⟩

/-- C6: the score starts each session at 0 (with the matching initial
label), never decreases across a run of goal_system, and changes by
exactly the number of goal-sensor Stopped events in the processed batch,
so it increases only when such an event is processed. -/
theorem score_monotone_from_zero (enemy : ℕ) (s : GoalState)
    (evs : List CollisionEvent) :
    initialScore = 0 ∧ initialScoreLabel = scoreLabel 0 ∧
    s.score ≤ (goal_system enemy s evs).score ∧
    (goal_system enemy s evs).score = s.score + countGoalStopped enemy evs := by
  have hcount : (goal_system enemy s evs).score =
      s.score + countGoalStopped enemy evs := by
    rw [goal_system_closed]
    by_cases hc : countGoalStopped enemy evs = 0 <;> simp [hc]
  refine ⟨rfl, by decide, ?_, hcount⟩
  rw [hcount]
  exact Nat.le_add_right _ _

/-- C7: the kick trigger is edge-driven and instantaneous: a just-pressed
frame from the idle pitch 0 rotates the pitch to minus the amplitude
within that same frame, while a frame with no edge (key merely held or
up) leaves the pitch unchanged. -/
theorem kick_press_edge_snaps_pitch :
    player_kick true false 0 = -FRAC_PI_2 ∧
    ∀ p : ℝ, player_kick false false p = p := by
  constructor
  · simp [player_kick]
  · intro p
    simp [player_kick]

/-- C8: over every physically valid kick-key input trace starting from
rest (key up, pitch 0), the pitch is 0 or minus the amplitude according to
the key state, stays within the band from minus the amplitude to 0, and
its magnitude never exceeds the single kick amplitude. -/
theorem kick_pitch_never_exceeds_amplitude (is : List KickInput) (d : Bool)
    (h : keyRun false is = some d) :
    kickRun 0 is = pitchOf d ∧
    -FRAC_PI_2 ≤ kickRun 0 is ∧ kickRun 0 is ≤ 0 ∧
    |kickRun 0 is| ≤ FRAC_PI_2 := by
  have hinv := kick_invariant is false d h
  have h0 : pitchOf false = 0 := by simp [pitchOf]
  rw [h0] at hinv
  have hpos := frac_pi_2_pos
  have hb : -FRAC_PI_2 ≤ kickRun 0 is ∧ kickRun 0 is ≤ 0 := by
    rw [hinv]
    cases d <;> simp [pitchOf] <;> linarith
  exact ⟨hinv, hb.1, hb.2, abs_le.mpr ⟨hb.1, le_trans hb.2 (le_of_lt hpos)⟩⟩

theorem kick_pitch_never_exceeds_amplitude_witness :
    keyRun false demoKickInputs = some false ∧
    (kickRun 0 demoKickInputs = pitchOf false ∧
     -FRAC_PI_2 ≤ kickRun 0 demoKickInputs ∧ kickRun 0 demoKickInputs ≤ 0 ∧
     |kickRun 0 demoKickInputs| ≤ FRAC_PI_2) :=
  ⟨by decide, kick_pitch_never_exceeds_amplitude demoKickInputs false (by decide)⟩

/-- C9: a frame batch with no goal-sensor Stopped event, whether empty or
holding only Started events or unrelated Stopped events, leaves the score,
the ball position, the score label and the player pitch all unchanged. -/
theorem quiet_batch_changes_nothing (enemy : ℕ) (fs : FrameState)
    (evs : List CollisionEvent) (h : ∀ ev ∈ evs, isGoalStopped enemy ev = false) :
    goal_system enemy fs.goal evs = fs.goal ∧ goalFrame enemy fs evs = fs := by
  have hc : countGoalStopped enemy evs = 0 := by
    simp only [countGoalStopped, List.length_eq_zero, List.filter_eq_nil_iff]
    intro a ha
    simp [h a ha]
  have hgs : goal_system enemy fs.goal evs = fs.goal := by
    rw [goal_system_closed, if_pos hc]
  exact ⟨hgs, by rw [goalFrame, hgs]⟩

theorem quiet_batch_changes_nothing_witness :
    (∀ ev ∈ demoQuietEvents, isGoalStopped 0 ev = false) ∧
    (goal_system 0 initialGoalState demoQuietEvents = initialGoalState ∧
     goalFrame 0 ⟨initialGoalState, 0⟩ demoQuietEvents = ⟨initialGoalState, 0⟩) :=
  ⟨by decide,
   quiet_batch_changes_nothing 0 ⟨initialGoalState, 0⟩ demoQuietEvents (by decide)⟩

/-- C10: when the kick key is both just pressed and just released within
one frame, the two rotations about the x axis by minus and plus a right
angle compose to the identity, so the frame leaves the player orientation
with zero net change. -/
theorem same_frame_press_release_cancels :
    (∀ v : Vec3, rotX FRAC_PI_2 (rotX (-FRAC_PI_2) v) = v) ∧
    ∀ p : ℝ, player_kick true true p = p := by
  constructor
  · intro v
    simp only [rotX, FRAC_PI_2, Real.cos_neg, Real.sin_neg, Real.cos_pi_div_two,
      Real.sin_pi_div_two]
    refine Vec3.ext ?_ ?_ ?_ <;> simp
  · intro p
    simp [player_kick]

end Playground
